import Mathlib

/-!
Shallow embedding of the payment-transaction lifecycle
(`src/backend/lambda/payments/transbank.py`) and the booking-class
derivation (`src/backend/lambda/flights/search.py`) of the
reserva-vuelos repository, with theorems settling the specification
claims about them.

Conventions of the embedding:
* Python numeric literals (`0.19`, `0.1`, `0.3`) are embedded as exact
  rationals; `int(x)` is truncation toward zero (`pyInt`).
* A Python call that may raise is a value of `Except String α`; the
  environment (gateway responses, database outcomes, generated ids)
  is passed explicitly to each operation.
* Python truthiness of an optional string (`if response.get('url')`)
  is `none`/empty-string falsy, modelled by `truthyStr`.
* Side effects (gateway calls, database inserts/updates, booking
  finalizer invocations) are returned as an explicit effects record.
-/

namespace Transbank

/-- Python `int(x)`: truncation toward zero on an exact rational. -/
def pyInt (q : ℚ) : ℤ :=
  if 0 ≤ q then ⌊q⌋ else -⌊-q⌋

/-- Python truthiness of an optional string: `None` and `""` are falsy. -/
def truthyStr : Option String → Bool
  | none => false
  | some s => !s.isEmpty

/-- `tax_amount = base_amount * 0.19` (transbank.py line 67). -/
def tax_amount (base_amount : ℚ) : ℚ :=
  base_amount * (19 / 100)

/-- `total_amount = int(base_amount + tax_amount)` (transbank.py line 68). -/
def total_amount (base_amount : ℚ) : ℤ :=
  pyInt (base_amount + tax_amount base_amount)

/-- The fixed `payment_types` dict of `_get_payment_type_description`
(transbank.py lines 344-354), in insertion order. -/
def payment_types : List (String × String) :=
  [("VD", "Tarjeta de Débito"),
   ("VN", "Tarjeta de Crédito"),
   ("VC", "Tarjeta de Crédito"),
   ("SI", "Sin Interés"),
   ("S2", "2 cuotas sin interés"),
   ("S3", "3 cuotas sin interés"),
   ("N2", "2 cuotas con interés"),
   ("N3", "3 cuotas con interés"),
   ("N4", "4 cuotas con interés")]

/-- `payment_types.get(code, f'Tipo {code}')` (transbank.py line 355). -/
def get_payment_type_description (payment_type_code : String) : String :=
  match payment_types.lookup payment_type_code with
  | some description => description
  | none => "Tipo " ++ payment_type_code

/-- Outcome classification of `confirm_payment_transaction`
(transbank.py lines 138-143): the `status`/`response_code` fields of the
gateway JSON are optional, and `response_code == 0` compares an optional
integer against `0`. -/
def classify_payment_status (status : Option String) (response_code : Option ℤ) :
    String :=
  if status = some "AUTHORIZED" ∧ response_code = some 0 then "approved"
  else if status = some "FAILED" then "rejected"
  else "pending"

/-- The `payment_data` dict received by `create_payment_transaction`:
every field is read with `.get` (optional) except `amount`, which is read
with `payment_data['amount']` and therefore raises `KeyError` when absent. -/
structure PaymentData where
  amount : Option ℚ
  session_id : Option String
  return_url : Option String
  flight_id : Option String
  user_id : Option String
  passenger_count : Option ℕ
deriving Repr, DecidableEq

/-- The empty dict `{}` used as the handler's default `payment_data`. -/
def PaymentData.empty : PaymentData :=
  ⟨none, none, none, none, none, none⟩

/-- The `transaction_data` dict sent to the gateway on creation
(transbank.py lines 71-76). -/
structure TransactionData where
  buy_order : String
  session_id : String
  amount : ℤ
  return_url : String
deriving Repr, DecidableEq

/-- JSON body of a successful gateway creation call: `url` and `token`
are looked up with `.get`, hence optional. -/
structure GatewayCreateResp where
  url : Option String
  token : Option String
deriving Repr, DecidableEq

/-- The row handed to `_store_transaction` (transbank.py lines 83-94). -/
structure StoredTransaction where
  buy_order : String
  token : String
  amount : ℤ
  base_amount : ℚ
  tax_amount : ℚ
  flight_id : Option String
  user_id : Option String
  passenger_count : ℕ
  status : String
  created_at : String
deriving Repr, DecidableEq

/-- Result dict of `create_payment_transaction` (both the success shape
of lines 96-103 and the failure shape of lines 109-112). -/
structure CreateResult where
  success : Bool
  error : Option String
  transaction_id : Option String
  payment_url : Option String
  token : Option String
  amount : Option ℤ
  currency : Option String
deriving Repr, DecidableEq

/-- Observable side effects of one `create_payment_transaction` call:
how many gateway requests went out, which `transaction_data` was sent,
and which rows were durably written by `_store_transaction`. -/
structure CreateEffects where
  gatewayCalls : ℕ
  gatewaySent : Option TransactionData
  storedRows : List StoredTransaction
deriving Repr, DecidableEq

/-- Environment of one `create` call: the ids/timestamps generated at
lines 63 and 73/93, the gateway outcome (`Except.error` models a raised
`RequestException` or non-2xx `raise_for_status`), and the database
outcome of the insert. -/
structure CreateEnv where
  buyOrder : String
  freshSessionId : String
  createdAt : String
  gateway : Except String GatewayCreateResp
  storeInsert : Except String Unit
deriving Repr

/-- The failure dict `{'success': False, 'error': str(e)}`. -/
def CreateResult.failure (e : String) : CreateResult :=
  ⟨false, some e, none, none, none, none, none⟩

/-- `create_payment_transaction` (transbank.py lines 57-112). The
surrounding `try/except` turns any raised exception into the failure
dict; `amount` missing raises `KeyError` before the gateway call, a
gateway failure raises after exactly one call, and the row is stored
only when the response carries truthy `url` and `token`. -/
def create_payment_transaction (env : CreateEnv) (payment_data : PaymentData) :
    CreateResult × CreateEffects :=
  match payment_data.amount with
  | none =>
      -- `payment_data['amount']` raised KeyError: no gateway call, no write
      (CreateResult.failure "KeyError: amount", ⟨0, none, []⟩)
  | some base_amount =>
      let tax := Transbank.tax_amount base_amount
      let total := Transbank.pyInt (base_amount + tax)
      let transaction_data : TransactionData :=
        { buy_order := env.buyOrder
          session_id := payment_data.session_id.getD env.freshSessionId
          amount := total
          return_url :=
            payment_data.return_url.getD "https://vuelachile.cl/payment/return" }
      match env.gateway with
      | Except.error e =>
          (CreateResult.failure e, ⟨1, some transaction_data, []⟩)
      | Except.ok resp =>
          if Transbank.truthyStr resp.url ∧ Transbank.truthyStr resp.token then
            let row : StoredTransaction :=
              { buy_order := env.buyOrder
                token := resp.token.getD ""
                amount := total
                base_amount := base_amount
                tax_amount := tax
                flight_id := payment_data.flight_id
                user_id := payment_data.user_id
                passenger_count := payment_data.passenger_count.getD 1
                status := "pending"
                created_at := env.createdAt }
            match env.storeInsert with
            | Except.error e =>
                -- `_store_transaction` raised: nothing durable was written
                (CreateResult.failure e, ⟨1, some transaction_data, []⟩)
            | Except.ok _ =>
                ({ success := true
                   error := none
                   transaction_id := some env.buyOrder
                   payment_url := resp.url
                   token := resp.token
                   amount := some total
                   currency := some "CLP" },
                 ⟨1, some transaction_data, [row]⟩)
          else
            (CreateResult.failure "Invalid response from Transbank",
             ⟨1, some transaction_data, []⟩)

/-- JSON body of a gateway confirmation call (transbank.py lines
124-135): every field is read with `.get`, hence optional. `card_number`
stands for `card_detail.get('card_number')`. -/
structure GatewayConfirmResp where
  vci : Option String
  amount : Option ℤ
  status : Option String
  buy_order : Option String
  session_id : Option String
  card_number : Option String
  accounting_date : Option String
  transaction_date : Option String
  authorization_code : Option String
  payment_type_code : Option String
  response_code : Option ℤ
  installments_number : Option ℤ
deriving Repr, DecidableEq

/-- The fixed SQL text of `_store_transaction` (transbank.py lines
214-224), whitespace-normalized to one line. It does not depend on the
input row: only bound parameters vary. -/
def store_transaction_sql : String :=
  "INSERT INTO payment_transactions (buy_order, token, amount, base_amount, tax_amount, flight_id, user_id, passenger_count, status, payment_method, created_at) VALUES (:buy_order, :token, :amount, :base_amount, :tax_amount, :flight_id, :user_id, :passenger_count, :status, 'transbank', :created_at)"

/-- The `set_clauses` list built by `_update_transaction` (transbank.py
lines 246-250): one `key = :key` fragment per key of `update_data`, in
dict insertion order. -/
def update_set_clauses (update_data : List (String × Option String)) :
    List String :=
  update_data.map fun kv => kv.1 ++ " = :" ++ kv.1

/-- The SQL text synthesized by `_update_transaction` (transbank.py line
256) for a given `update_data` dict (values model the bound parameters:
`some s` is a `stringValue`, `none` is `isNull`). -/
def update_sql (update_data : List (String × Option String)) : String :=
  "UPDATE payment_transactions SET " ++
    String.intercalate ", " (update_set_clauses update_data) ++
    " WHERE buy_order = :buy_order"

/-- The `update_data` dict passed by `confirm_payment_transaction` to
`_update_transaction` (transbank.py lines 146-156), in insertion order;
integer-valued fields are stringified as the boto parameters do. -/
def confirm_update_fields (r : GatewayConfirmResp)
    (payment_status confirmedAt : String) : List (String × Option String) :=
  [("status", some payment_status),
   ("authorization_code", r.authorization_code),
   ("response_code", r.response_code.map toString),
   ("transaction_date", r.transaction_date),
   ("accounting_date", r.accounting_date),
   ("card_number", r.card_number),
   ("installments", r.installments_number.map toString),
   ("payment_type",
     some (get_payment_type_description (r.payment_type_code.getD "None"))),
   ("confirmed_at", some confirmedAt)]

/-- A row of the `bookings` table as inserted by
`_process_successful_booking` (transbank.py lines 290-311). -/
structure Booking where
  booking_id : String
  flight_id : String
  user_id : String
  passenger_count : ℕ
  total_amount : String
  payment_status : String
  booking_status : String
  payment_method : String
  transaction_reference : String
deriving Repr, DecidableEq

/-- Environment of one Booking Finalizer run: the outcome of the
`SELECT * FROM payment_transactions` read (`records` as lists of
optional string values, `none` modelling a value without a
`stringValue`), the outcome of the booking insert, and the generated
booking id. -/
structure FinalizerEnv where
  lookup : Except String (List (List (Option String)))
  bookingInsert : Except String Unit
  bookingId : String

/-- `_process_successful_booking` (transbank.py lines 270-326). The
whole body is wrapped in `try/except` that logs and does **not**
re-raise, so the function is total and returns the list of booking rows
actually inserted. The booking copies columns 4 (flight_id), 5
(user_id), 6 (passenger_count) and 2 (amount) of the selected row; a
missing column or a non-numeric passenger count raises inside the try
and yields no booking. -/
def process_successful_booking (buy_order : Option String)
    (fin : FinalizerEnv) : List Booking :=
  match fin.lookup with
  | Except.error _ => []
  | Except.ok records =>
    match records with
    | [] => []
    | transaction :: _ =>
      match transaction.get? 4, transaction.get? 5,
            transaction.get? 6, transaction.get? 2 with
      | some (some fid), some (some uid), some (some pc), some (some amt) =>
        match pc.toNat? with
        | none => []
        | some pcount =>
          match fin.bookingInsert with
          | Except.error _ => []
          | Except.ok _ =>
              [{ booking_id := fin.bookingId
                 flight_id := fid
                 user_id := uid
                 passenger_count := pcount
                 total_amount := amt
                 payment_status := "paid"
                 booking_status := "confirmed"
                 payment_method := "transbank"
                 transaction_reference := buy_order.getD "" }]
      | _, _, _, _ => []

/-- Result dict of `confirm_payment_transaction` (success shape of lines
162-174, failure shape of lines 180-183); `card_last_four`/`card_type`
flatten the nested `card_info` dict. -/
structure ConfirmResult where
  success : Bool
  error : Option String
  transaction_id : Option String
  status : Option String
  amount : Option ℤ
  authorization_code : Option String
  card_last_four : Option String
  card_type : Option String
  transaction_date : Option String
  installments : Option ℤ
deriving Repr, DecidableEq

/-- The failure dict `{'success': False, 'error': str(e)}`. -/
def ConfirmResult.failure (e : String) : ConfirmResult :=
  ⟨false, some e, none, none, none, none, none, none, none, none⟩

/-- Observable side effects of one `confirm_payment_transaction` call:
the `update_data` handed to `_update_transaction` (if reached), whether
that update was durably applied, how many times the Booking Finalizer
ran, and the booking rows it inserted. -/
structure ConfirmEffects where
  updateData : Option (List (String × Option String))
  updateApplied : Bool
  finalizerCalls : ℕ
  bookings : List Booking
deriving Repr, DecidableEq

/-- `confirm_payment_transaction` (transbank.py lines 114-183).
`gw = Except.error e` models a raised gateway exception, `Except.ok
none` a falsy (empty) response dict, which hits the `raise` at line 176;
both are caught by the outer `try/except`. The database update runs
before the finalizer, so a raised update aborts the call as a failure
with no finalizer invocation. -/
def confirm_payment_transaction (gw : Except String (Option GatewayConfirmResp))
    (updateOutcome : Except String Unit) (confirmedAt : String)
    (fin : FinalizerEnv) : ConfirmResult × ConfirmEffects :=
  match gw with
  | Except.error e => (ConfirmResult.failure e, ⟨none, false, 0, []⟩)
  | Except.ok none =>
      (ConfirmResult.failure "No response from Transbank confirmation",
       ⟨none, false, 0, []⟩)
  | Except.ok (some r) =>
      let payment_status := classify_payment_status r.status r.response_code
      let upd := confirm_update_fields r payment_status confirmedAt
      match updateOutcome with
      | Except.error e =>
          (ConfirmResult.failure e, ⟨some upd, false, 0, []⟩)
      | Except.ok _ =>
          let approved := payment_status = "approved"
          let bookings :=
            if approved then process_successful_booking r.buy_order fin else []
          ({ success := true
             error := none
             transaction_id := r.buy_order
             status := some payment_status
             amount := r.amount
             authorization_code := r.authorization_code
             card_last_four :=
               if truthyStr r.card_number then
                 some ((r.card_number.getD "").takeRight 4)
               else none
             card_type :=
               some (get_payment_type_description
                 (r.payment_type_code.getD "None"))
             transaction_date := r.transaction_date
             installments := r.installments_number },
           ⟨some upd, true, if approved then 1 else 0, bookings⟩)

/-- The parsed JSON request body of the payment endpoint: `action`,
`payment_data` and `token` are all read with `.get`. -/
structure RequestBody where
  action : Option String
  payment_data : Option PaymentData
  token : Option String

/-- Environment of one `lambda_handler` call (service construction is
taken to succeed; its external inputs are bundled here). -/
structure HandlerEnv where
  createEnv : CreateEnv
  confirmGw : Except String (Option GatewayConfirmResp)
  confirmUpdate : Except String Unit
  confirmedAt : String
  finalizer : FinalizerEnv

/-- Body of the handler's HTTP response: a 200 carries the result dict
of the dispatched operation, a 500 carries the raised exception's text
(the `DEBUG=true` rendering of transbank.py line 412). -/
inductive HandlerBody where
  | createBody (r : CreateResult)
  | confirmBody (r : ConfirmResult)
  | errorBody (message : String)
deriving Repr, DecidableEq

/-- The handler's HTTP response (headers omitted: they are constant). -/
structure HandlerResponse where
  statusCode : ℕ
  body : HandlerBody
deriving Repr, DecidableEq

/-- Effects record for a `create` branch that never ran. -/
def emptyCreateEffects : CreateEffects := ⟨0, none, []⟩

/-- Effects record for a `confirm` branch that never ran. -/
def emptyConfirmEffects : ConfirmEffects := ⟨none, false, 0, []⟩

/-- `lambda_handler` (transbank.py lines 357-414). The action defaults
to `'create'` only when the `action` key is absent
(`request_body.get('action', 'create')`); a present empty string is
kept. A missing or empty `token` on `confirm`, and any unknown action,
raise `ValueError`, which the outer `try/except` maps to a 500
response. -/
def lambda_handler (env : HandlerEnv) (body : RequestBody) :
    HandlerResponse × CreateEffects × ConfirmEffects :=
  let action := body.action.getD "create"
  if action = "create" then
    let payment_data := body.payment_data.getD PaymentData.empty
    let out := create_payment_transaction env.createEnv payment_data
    (⟨200, HandlerBody.createBody out.1⟩, out.2, emptyConfirmEffects)
  else if action = "confirm" then
    if truthyStr body.token then
      let out := confirm_payment_transaction env.confirmGw env.confirmUpdate
        env.confirmedAt env.finalizer
      (⟨200, HandlerBody.confirmBody out.1⟩, emptyCreateEffects, out.2)
    else
      (⟨500, HandlerBody.errorBody "Token is required for payment confirmation"⟩,
       emptyCreateEffects, emptyConfirmEffects)
  else
    (⟨500, HandlerBody.errorBody ("Unknown action: " ++ action)⟩,
     emptyCreateEffects, emptyConfirmEffects)

end Transbank

namespace FlightSearch

/-- `determine_booking_class` (search.py lines 227-236); the float
thresholds `0.1` and `0.3` are embedded as exact rationals. -/
def determine_booking_class (available_seats total_seats : ℕ) : String :=
  if available_seats = 0 then "sold_out"
  else if (available_seats : ℚ) ≤ (total_seats : ℚ) * (1 / 10) then "limited"
  else if (available_seats : ℚ) ≤ (total_seats : ℚ) * (3 / 10) then "moderate"
  else "available"

end FlightSearch

namespace Transbank

theorem pyInt_eq_floor (q : ℚ) (h : 0 ≤ q) : pyInt q = ⌊q⌋ := by
  simp [pyInt, h]

theorem total_amount_eq_floor (A : ℚ) (hA : 0 ≤ A) :
    total_amount A = ⌊A * (119 / 100)⌋ := by
  have hsum : A + tax_amount A = A * (119 / 100) := by
    unfold tax_amount; ring
  have hnn : (0 : ℚ) ≤ A * (119 / 100) := by
    apply mul_nonneg hA; norm_num
  rw [total_amount, hsum, pyInt_eq_floor _ hnn]

/-- C1: for every payment request with base amount `A ≥ 0`, `create`
computes the charged total as exactly `⌊A × 1.19⌋` (tax `A × 0.19`,
total the integer conversion of `A + tax`), and this total is the amount
sent to the gateway and the amount stored in the transaction row. -/
theorem create_total_is_floor_of_vat (A : ℚ) (env : CreateEnv)
    (pd : PaymentData) (hA : 0 ≤ A) (hamt : pd.amount = some A) :
    total_amount A = ⌊A * (119 / 100)⌋ ∧
    (∀ td, (create_payment_transaction env pd).2.gatewaySent = some td →
      td.amount = ⌊A * (119 / 100)⌋) ∧
    (∀ row ∈ (create_payment_transaction env pd).2.storedRows,
      row.amount = ⌊A * (119 / 100)⌋) ∧
    (∀ n, (create_payment_transaction env pd).1.amount = some n →
      n = ⌊A * (119 / 100)⌋) := by
  have h1 := total_amount_eq_floor A hA
  have htot : pyInt (A + tax_amount A) = ⌊A * (119 / 100)⌋ := h1
  refine ⟨h1, ?_, ?_, ?_⟩ <;>
  · simp only [create_payment_transaction, hamt]
    rcases env.gateway with e | resp
    · simp [htot, CreateResult.failure]
    · dsimp only
      split_ifs with hok
      · rcases env.storeInsert with e | u <;>
          simp [htot, CreateResult.failure]
      · simp [htot, CreateResult.failure]

/-- Closed witness for `create_total_is_floor_of_vat` at the spec's
end-to-end example `amount = 10000` (total `11900`). -/
theorem create_total_is_floor_of_vat_witness :
    total_amount 10000 = ⌊(10000 : ℚ) * (119 / 100)⌋ ∧
    (∀ td, (create_payment_transaction
        ⟨"VC-1", "s", "t", Except.ok ⟨some "u", some "tk"⟩, Except.ok ()⟩
        ⟨some 10000, none, none, none, none, none⟩).2.gatewaySent = some td →
      td.amount = ⌊(10000 : ℚ) * (119 / 100)⌋) ∧
    (∀ row ∈ (create_payment_transaction
        ⟨"VC-1", "s", "t", Except.ok ⟨some "u", some "tk"⟩, Except.ok ()⟩
        ⟨some 10000, none, none, none, none, none⟩).2.storedRows,
      row.amount = ⌊(10000 : ℚ) * (119 / 100)⌋) ∧
    (∀ n, (create_payment_transaction
        ⟨"VC-1", "s", "t", Except.ok ⟨some "u", some "tk"⟩, Except.ok ()⟩
        ⟨some 10000, none, none, none, none, none⟩).1.amount = some n →
      n = ⌊(10000 : ℚ) * (119 / 100)⌋) :=
  create_total_is_floor_of_vat 10000 _ _ (by norm_num) rfl

/-- C2: `confirm` classifies a gateway response as `approved` iff the
status is `AUTHORIZED` and the response code is `0`; as `rejected` iff
the status is `FAILED`; and as `pending` in every other case. -/
theorem classify_payment_status_spec (status : Option String)
    (response_code : Option ℤ) :
    (classify_payment_status status response_code = "approved" ↔
      status = some "AUTHORIZED" ∧ response_code = some 0) ∧
    (classify_payment_status status response_code = "rejected" ↔
      status = some "FAILED") ∧
    (classify_payment_status status response_code = "pending" ↔
      ¬(status = some "AUTHORIZED" ∧ response_code = some 0) ∧
        status ≠ some "FAILED") := by
  unfold classify_payment_status
  split_ifs with h1 h2 <;> simp_all

/-- Closed witness for `classify_payment_status_spec` at an approved
gateway response. -/
theorem classify_payment_status_spec_witness :
    (classify_payment_status (some "AUTHORIZED") (some 0) = "approved" ↔
      some "AUTHORIZED" = some "AUTHORIZED" ∧ (some 0 : Option ℤ) = some 0) ∧
    (classify_payment_status (some "AUTHORIZED") (some 0) = "rejected" ↔
      some "AUTHORIZED" = some "FAILED") ∧
    (classify_payment_status (some "AUTHORIZED") (some 0) = "pending" ↔
      ¬(some "AUTHORIZED" = some "AUTHORIZED" ∧
          (some 0 : Option ℤ) = some 0) ∧
        some "AUTHORIZED" ≠ some "FAILED") :=
  classify_payment_status_spec (some "AUTHORIZED") (some 0)

/-- C3: in a single `confirm` call, a booking row exists only when the
outcome was classified `approved`; when the gateway answered and the
metadata update succeeded, the Booking Finalizer runs exactly once for
an `approved` classification and zero times otherwise; and it never
runs more than once. -/
theorem confirm_finalizer_exactly_once_iff_approved
    (gw : Except String (Option GatewayConfirmResp))
    (updateOutcome : Except String Unit) (confirmedAt : String)
    (fin : FinalizerEnv) :
    ((confirm_payment_transaction gw updateOutcome confirmedAt
        fin).2.bookings ≠ [] →
      ∃ r, gw = Except.ok (some r) ∧
        classify_payment_status r.status r.response_code = "approved") ∧
    (∀ r, gw = Except.ok (some r) → updateOutcome = Except.ok () →
      (confirm_payment_transaction gw updateOutcome confirmedAt
          fin).2.finalizerCalls =
        if classify_payment_status r.status r.response_code = "approved"
        then 1 else 0) ∧
    (confirm_payment_transaction gw updateOutcome confirmedAt
        fin).2.finalizerCalls ≤ 1 := by
  rcases gw with e | o
  · simp [confirm_payment_transaction]
  · rcases o with _ | r
    · simp [confirm_payment_transaction]
    · rcases updateOutcome with e | u
      · simp [confirm_payment_transaction]
      · refine ⟨?_, ?_, ?_⟩
        · simp only [confirm_payment_transaction]
          split_ifs with h <;> simp [h]
        · intro r' hr' _
          injection hr' with hr'
          injection hr' with hr'
          subst hr'
          simp only [confirm_payment_transaction]
        · simp only [confirm_payment_transaction]
          split_ifs <;> simp

/-- Closed witness for `confirm_finalizer_exactly_once_iff_approved`:
an approved response with a found transaction row triggers exactly one
finalizer run. -/
theorem confirm_finalizer_exactly_once_iff_approved_witness :
    (confirm_payment_transaction
      (Except.ok (some ⟨none, some 11900, some "AUTHORIZED", some "VC-1",
        none, some "1234567890123456", none, none, some "AUTH1", some "VN",
        some 0, some 1⟩))
      (Except.ok ()) "2024-01-01"
      ⟨Except.ok [[some "VC-1", some "tk", some "11900", some "190",
        some "F1", some "U1", some "2"]], Except.ok (), "BK-1"⟩).2.finalizerCalls
      = 1 := by
  have h := confirm_finalizer_exactly_once_iff_approved
    (Except.ok (some ⟨none, some 11900, some "AUTHORIZED", some "VC-1",
      none, some "1234567890123456", none, none, some "AUTH1", some "VN",
      some 0, some 1⟩))
    (Except.ok ()) "2024-01-01"
    ⟨Except.ok [[some "VC-1", some "tk", some "11900", some "190",
      some "F1", some "U1", some "2"]], Except.ok (), "BK-1"⟩
  rw [h.2.1 _ rfl rfl]
  decide

/-- C4: when the gateway call of `create` fails (raised request error,
non-success HTTP status, or a response missing truthy `url`/`token`
fields), no Transaction Store row is written and the result is a
failure dict; a row is stored only after a successful gateway response
carrying both fields. -/
theorem create_no_store_write_on_gateway_failure (env : CreateEnv)
    (pd : PaymentData) :
    (∀ e, env.gateway = Except.error e →
      (create_payment_transaction env pd).1.success = false ∧
      (create_payment_transaction env pd).1.error ≠ none ∧
      (create_payment_transaction env pd).2.storedRows = []) ∧
    (∀ resp, env.gateway = Except.ok resp →
      ¬(truthyStr resp.url ∧ truthyStr resp.token) →
      (create_payment_transaction env pd).1.success = false ∧
      (create_payment_transaction env pd).1.error ≠ none ∧
      (create_payment_transaction env pd).2.storedRows = []) ∧
    ((create_payment_transaction env pd).2.storedRows ≠ [] →
      ∃ resp, env.gateway = Except.ok resp ∧
        truthyStr resp.url ∧ truthyStr resp.token ∧
        env.storeInsert = Except.ok ()) := by
  rcases pd with ⟨amt, sid, ru, fid, uid, pc⟩
  rcases amt with _ | A
  · simp [create_payment_transaction, CreateResult.failure]
  · refine ⟨?_, ?_, ?_⟩
    · intro e he
      simp [create_payment_transaction, he, CreateResult.failure]
    · intro resp hresp hbad
      simp only [create_payment_transaction, hresp]
      rw [if_neg hbad]
      simp [CreateResult.failure]
    · intro hne
      rcases hgw : env.gateway with e | resp
      · simp [create_payment_transaction, hgw, CreateResult.failure] at hne
      · refine ⟨resp, rfl, ?_⟩
        simp only [create_payment_transaction, hgw] at hne
        by_cases h : truthyStr resp.url = true ∧ truthyStr resp.token = true
        · rcases hst : env.storeInsert with e | u
          · rw [if_pos h, hst] at hne
            simp at hne
          · exact ⟨h.1, h.2, by cases u; rfl⟩
        · rw [if_neg h] at hne
          simp at hne

/-- Closed witness for `create_no_store_write_on_gateway_failure` at a
network failure and at a response missing its token. -/
theorem create_no_store_write_on_gateway_failure_witness :
    ((create_payment_transaction
        ⟨"VC-1", "s", "t", Except.error "timeout", Except.ok ()⟩
        ⟨some 10000, none, none, none, none, none⟩).1.success = false ∧
      (create_payment_transaction
        ⟨"VC-1", "s", "t", Except.error "timeout", Except.ok ()⟩
        ⟨some 10000, none, none, none, none, none⟩).1.error ≠ none ∧
      (create_payment_transaction
        ⟨"VC-1", "s", "t", Except.error "timeout", Except.ok ()⟩
        ⟨some 10000, none, none, none, none, none⟩).2.storedRows = []) ∧
    ((create_payment_transaction
        ⟨"VC-1", "s", "t", Except.ok ⟨some "u", none⟩, Except.ok ()⟩
        ⟨some 10000, none, none, none, none, none⟩).1.success = false ∧
      (create_payment_transaction
        ⟨"VC-1", "s", "t", Except.ok ⟨some "u", none⟩, Except.ok ()⟩
        ⟨some 10000, none, none, none, none, none⟩).2.storedRows = []) := by
  have h1 := create_no_store_write_on_gateway_failure
    ⟨"VC-1", "s", "t", Except.error "timeout", Except.ok ()⟩
    ⟨some 10000, none, none, none, none, none⟩
  have h2 := create_no_store_write_on_gateway_failure
    ⟨"VC-1", "s", "t", Except.ok ⟨some "u", none⟩, Except.ok ()⟩
    ⟨some 10000, none, none, none, none, none⟩
  refine ⟨h1.1 "timeout" rfl, ?_⟩
  have := h2.2.1 ⟨some "u", none⟩ rfl (by decide)
  exact ⟨this.1, this.2.2⟩

/-- C5: the `confirm` response does not depend on the Booking Finalizer
environment at all (a finalize failure is swallowed), and an approved
outcome whose metadata update succeeded still reports `success = true`,
status `approved` and the gateway's transaction metadata, whatever the
finalizer did. -/
theorem confirm_result_independent_of_finalizer
    (gw : Except String (Option GatewayConfirmResp))
    (updateOutcome : Except String Unit) (confirmedAt : String)
    (fin fin' : FinalizerEnv) :
    (confirm_payment_transaction gw updateOutcome confirmedAt fin).1 =
      (confirm_payment_transaction gw updateOutcome confirmedAt fin').1 ∧
    (∀ r, gw = Except.ok (some r) → updateOutcome = Except.ok () →
      classify_payment_status r.status r.response_code = "approved" →
      (confirm_payment_transaction gw updateOutcome confirmedAt
        fin).1.success = true ∧
      (confirm_payment_transaction gw updateOutcome confirmedAt
        fin).1.status = some "approved" ∧
      (confirm_payment_transaction gw updateOutcome confirmedAt
        fin).1.transaction_id = r.buy_order ∧
      (confirm_payment_transaction gw updateOutcome confirmedAt
        fin).1.amount = r.amount ∧
      (confirm_payment_transaction gw updateOutcome confirmedAt
        fin).1.authorization_code = r.authorization_code) := by
  constructor
  · rcases gw with e | o
    · rfl
    · rcases o with _ | r
      · rfl
      · rcases updateOutcome with e | u <;> rfl
  · intro r hr hupd happ
    subst hr; subst hupd
    simp [confirm_payment_transaction, happ]

/-- Closed witness for `confirm_result_independent_of_finalizer`: a
failing finalizer (store read error) and a succeeding one yield the
same approved response. -/
theorem confirm_result_independent_of_finalizer_witness :
    ((confirm_payment_transaction
        (Except.ok (some ⟨none, some 11900, some "AUTHORIZED", some "VC-1",
          none, none, none, none, some "AUTH1", some "VN", some 0, some 1⟩))
        (Except.ok ()) "2024-01-01"
        ⟨Except.error "db down", Except.ok (), "BK-1"⟩).1 =
      (confirm_payment_transaction
        (Except.ok (some ⟨none, some 11900, some "AUTHORIZED", some "VC-1",
          none, none, none, none, some "AUTH1", some "VN", some 0, some 1⟩))
        (Except.ok ()) "2024-01-01"
        ⟨Except.ok [[some "VC-1", some "tk", some "11900", some "190",
          some "F1", some "U1", some "2"]], Except.ok (), "BK-1"⟩).1) ∧
    (confirm_payment_transaction
      (Except.ok (some ⟨none, some 11900, some "AUTHORIZED", some "VC-1",
        none, none, none, none, some "AUTH1", some "VN", some 0, some 1⟩))
      (Except.ok ()) "2024-01-01"
      ⟨Except.error "db down", Except.ok (), "BK-1"⟩).1.success = true := by
  have h := confirm_result_independent_of_finalizer
    (Except.ok (some ⟨none, some 11900, some "AUTHORIZED", some "VC-1",
      none, none, none, none, some "AUTH1", some "VN", some 0, some 1⟩))
    (Except.ok ()) "2024-01-01"
    ⟨Except.error "db down", Except.ok (), "BK-1"⟩
    ⟨Except.ok [[some "VC-1", some "tk", some "11900", some "190",
      some "F1", some "U1", some "2"]], Except.ok (), "BK-1"⟩
  exact ⟨h.1, (h.2 _ rfl rfl (by decide)).1⟩

/-- C6 counterexample: a present but negative `amount` (−100) is not
rejected: `create` performs the gateway call, succeeds, and stores a
row, contradicting the claimed `InvalidRequest` failure with no gateway
call and no store write. -/
theorem create_negative_amount_reaches_gateway :
    (create_payment_transaction
        ⟨"VC-1", "s", "t", Except.ok ⟨some "u", some "tk"⟩, Except.ok ()⟩
        ⟨some (-100), none, none, none, none, none⟩).2.gatewayCalls = 1 ∧
    (create_payment_transaction
        ⟨"VC-1", "s", "t", Except.ok ⟨some "u", some "tk"⟩, Except.ok ()⟩
        ⟨some (-100), none, none, none, none, none⟩).1.success = true ∧
    (create_payment_transaction
        ⟨"VC-1", "s", "t", Except.ok ⟨some "u", some "tk"⟩, Except.ok ()⟩
        ⟨some (-100), none, none, none, none, none⟩).2.storedRows ≠ [] := by
  refine ⟨rfl, rfl, ?_⟩
  decide

/-- C6 (amended): `create` validates only the presence of `amount`: when
it is absent the call fails (raised `KeyError`) before any gateway call
or store write; a negative amount is not validated and proceeds to the
gateway call. -/
theorem create_validates_presence_only (env : CreateEnv) (pd : PaymentData) :
    (pd.amount = none →
      (create_payment_transaction env pd).1.success = false ∧
      (create_payment_transaction env pd).1.error ≠ none ∧
      (create_payment_transaction env pd).2.gatewayCalls = 0 ∧
      (create_payment_transaction env pd).2.storedRows = []) ∧
    (∀ A : ℚ, A < 0 → pd.amount = some A →
      (create_payment_transaction env pd).2.gatewayCalls = 1) := by
  constructor
  · intro h
    simp [create_payment_transaction, h, CreateResult.failure]
  · intro A _ h
    simp only [create_payment_transaction, h]
    rcases env.gateway with e | resp
    · rfl
    · dsimp only
      split_ifs with hok
      · rcases env.storeInsert with e | u <;> rfl
      · rfl

/-- Closed witness for `create_validates_presence_only`: an absent
amount makes no gateway call; amount −100 makes one. -/
theorem create_validates_presence_only_witness :
    (create_payment_transaction
        ⟨"VC-1", "s", "t", Except.ok ⟨some "u", some "tk"⟩, Except.ok ()⟩
        ⟨none, none, none, none, none, none⟩).2.gatewayCalls = 0 ∧
    (create_payment_transaction
        ⟨"VC-1", "s", "t", Except.ok ⟨some "u", some "tk"⟩, Except.ok ()⟩
        ⟨some (-100), none, none, none, none, none⟩).2.gatewayCalls = 1 := by
  have h1 := create_validates_presence_only
    ⟨"VC-1", "s", "t", Except.ok ⟨some "u", some "tk"⟩, Except.ok ()⟩
    ⟨none, none, none, none, none, none⟩
  have h2 := create_validates_presence_only
    ⟨"VC-1", "s", "t", Except.ok ⟨some "u", some "tk"⟩, Except.ok ()⟩
    ⟨some (-100), none, none, none, none, none⟩
  exact ⟨(h1.1 rfl).2.2.1, h2.2 (-100) (by norm_num) rfl⟩

/-- C7 counterexample: the unrecognized card code `"ZZ"` renders as the
Spanish `"Tipo ZZ"`, not the claimed `"Type ZZ"`. -/
theorem payment_type_unknown_renders_tipo_not_type :
    get_payment_type_description "ZZ" = "Tipo ZZ" ∧
    get_payment_type_description "ZZ" ≠ "Type ZZ" := by
  constructor
  · rfl
  · decide

/-- C7 (amended): the card-brand translation is a fixed total lookup:
`"VN"` renders as the credit-card description `"Tarjeta de Crédito"`,
and any code outside the table renders as `"Tipo "` followed by the
code. -/
theorem payment_type_description_total (code : String)
    (h : payment_types.lookup code = none) :
    get_payment_type_description "VN" = "Tarjeta de Crédito" ∧
    get_payment_type_description code = "Tipo " ++ code := by
  constructor
  · rfl
  · simp [get_payment_type_description, h]

/-- Closed witness for `payment_type_description_total` at the
unrecognized code `"ZZ"`. -/
theorem payment_type_description_total_witness :
    payment_types.lookup "ZZ" = none ∧
    (get_payment_type_description "VN" = "Tarjeta de Crédito" ∧
      get_payment_type_description "ZZ" = "Tipo " ++ "ZZ") :=
  ⟨by decide, payment_type_description_total "ZZ" (by decide)⟩

/-- C9 counterexample: the SQL text sent by the update operation is not
one fixed string — it differs between two `update_data` inputs with
different key sets, because the `SET` clause is synthesized from the
input's keys. -/
theorem update_sql_not_fixed :
    update_sql [("status", some "approved")] ≠
      update_sql [("status", some "approved"), ("confirmed_at", some "t")] := by
  decide

/-- C9 (amended): the insert statement's SQL is a fixed string, while
the update statement's SQL is synthesized from the `update_data` keys
alone: the bound values never influence the SQL text (two inputs with
the same key list produce the identical statement), but different key
sets produce different statements. -/
theorem update_sql_depends_only_on_keys
    (d₁ d₂ : List (String × Option String))
    (h : d₁.map Prod.fst = d₂.map Prod.fst) :
    update_sql d₁ = update_sql d₂ := by
  have e : ∀ d : List (String × Option String),
      update_set_clauses d =
        (d.map Prod.fst).map (fun k => k ++ " = :" ++ k) := by
    intro d
    simp [update_set_clauses, List.map_map]
  unfold update_sql
  rw [e, e, h]

/-- Closed witness for `update_sql_depends_only_on_keys`: the same key
with different bound values (a string vs `NULL`) yields the identical
SQL text. -/
theorem update_sql_depends_only_on_keys_witness :
    ([("status", some "approved")] :
        List (String × Option String)).map Prod.fst =
      ([("status", none)] : List (String × Option String)).map Prod.fst ∧
    update_sql [("status", some "approved")] = update_sql [("status", none)] :=
  ⟨by decide, update_sql_depends_only_on_keys _ _ (by decide)⟩

/-- C10 counterexample: a request body whose `action` field is present
but the empty string hits the `Unknown action` error (HTTP 500), so the
error is not limited to non-empty unknown action values. -/
theorem lambda_handler_empty_action_raises_unknown :
    ("" : String).isEmpty = true ∧
    (lambda_handler
        ⟨⟨"VC-1", "s", "t", Except.ok ⟨some "u", some "tk"⟩, Except.ok ()⟩,
          Except.ok none, Except.ok (), "now",
          ⟨Except.ok [], Except.ok (), "BK-1"⟩⟩
        ⟨some "", none, none⟩).1 =
      ⟨500, HandlerBody.errorBody "Unknown action: "⟩ := by
  exact ⟨rfl, rfl⟩

/-- C10 (amended): an absent `action` field defaults to `create`: the
handler returns HTTP 200 carrying the result of the create operation on
`payment_data` (defaulting to the empty object) with its effects; any
present `action` value other than `create` or `confirm` — including the
empty string — raises the `Unknown action` error as an HTTP 500. -/
theorem lambda_handler_action_dispatch (env : HandlerEnv)
    (body : RequestBody) :
    (body.action = none →
      (lambda_handler env body).1.statusCode = 200 ∧
      (lambda_handler env body).1.body = HandlerBody.createBody
        (create_payment_transaction env.createEnv
          (body.payment_data.getD PaymentData.empty)).1 ∧
      (lambda_handler env body).2.1 =
        (create_payment_transaction env.createEnv
          (body.payment_data.getD PaymentData.empty)).2) ∧
    (∀ s, body.action = some s → s ≠ "create" → s ≠ "confirm" →
      (lambda_handler env body).1 =
        ⟨500, HandlerBody.errorBody ("Unknown action: " ++ s)⟩) := by
  constructor
  · intro h
    simp [lambda_handler, h]
  · intro s hs h1 h2
    simp [lambda_handler, hs, h1, h2]

/-- Closed witness for `lambda_handler_action_dispatch`: an absent
action returns 200; action `"refund"` returns the 500 Unknown-action
error. -/
theorem lambda_handler_action_dispatch_witness :
    (lambda_handler
        ⟨⟨"VC-1", "s", "t", Except.ok ⟨some "u", some "tk"⟩, Except.ok ()⟩,
          Except.ok none, Except.ok (), "now",
          ⟨Except.ok [], Except.ok (), "BK-1"⟩⟩
        ⟨none, none, none⟩).1.statusCode = 200 ∧
    (lambda_handler
        ⟨⟨"VC-1", "s", "t", Except.ok ⟨some "u", some "tk"⟩, Except.ok ()⟩,
          Except.ok none, Except.ok (), "now",
          ⟨Except.ok [], Except.ok (), "BK-1"⟩⟩
        ⟨some "refund", none, none⟩).1 =
      ⟨500, HandlerBody.errorBody ("Unknown action: " ++ "refund")⟩ := by
  have h1 := lambda_handler_action_dispatch
    ⟨⟨"VC-1", "s", "t", Except.ok ⟨some "u", some "tk"⟩, Except.ok ()⟩,
      Except.ok none, Except.ok (), "now",
      ⟨Except.ok [], Except.ok (), "BK-1"⟩⟩
    ⟨none, none, none⟩
  have h2 := lambda_handler_action_dispatch
    ⟨⟨"VC-1", "s", "t", Except.ok ⟨some "u", some "tk"⟩, Except.ok ()⟩,
      Except.ok none, Except.ok (), "now",
      ⟨Except.ok [], Except.ok (), "BK-1"⟩⟩
    ⟨some "refund", none, none⟩
  exact ⟨(h1.1 rfl).1, h2.2 "refund" rfl (by decide) (by decide)⟩

end Transbank

namespace FlightSearch

theorem le_tenth_iff (a t : ℕ) :
    ((a : ℚ) ≤ (t : ℚ) * (1 / 10)) ↔ 10 * a ≤ t := by
  rw [mul_one_div, le_div_iff₀ (by norm_num : (0 : ℚ) < 10)]
  norm_cast
  omega

theorem le_three_tenths_iff (a t : ℕ) :
    ((a : ℚ) ≤ (t : ℚ) * (3 / 10)) ↔ 10 * a ≤ 3 * t := by
  have h3 : (t : ℚ) * (3 / 10) = (3 * t) / 10 := by ring
  rw [h3, le_div_iff₀ (by norm_num : (0 : ℚ) < 10)]
  norm_cast
  omega

/-- C8: for every pair of non-negative seat counts, the derived booking
class is `sold_out` iff no seat is available; `limited` iff some seats
remain but at most 10% of the total; `moderate` iff more than 10% but at
most 30% remain; and `available` iff more than 30% remain (the
inequalities cleared of denominators over ℕ). -/
theorem determine_booking_class_spec (available_seats total_seats : ℕ) :
    (determine_booking_class available_seats total_seats = "sold_out" ↔
      available_seats = 0) ∧
    (determine_booking_class available_seats total_seats = "limited" ↔
      0 < available_seats ∧ 10 * available_seats ≤ total_seats) ∧
    (determine_booking_class available_seats total_seats = "moderate" ↔
      total_seats < 10 * available_seats ∧
        10 * available_seats ≤ 3 * total_seats) ∧
    (determine_booking_class available_seats total_seats = "available" ↔
      3 * total_seats < 10 * available_seats) := by
  unfold determine_booking_class
  split_ifs with h1 h2 h3
  · refine ⟨by simp [h1], ?_, ?_, ?_⟩ <;> subst h1 <;> simp
  · rw [le_tenth_iff] at h2
    refine ⟨by simp [h1], ?_, ?_, ?_⟩ <;> simp <;> omega
  · rw [le_tenth_iff] at h2
    rw [le_three_tenths_iff] at h3
    refine ⟨by simp [h1], ?_, ?_, ?_⟩ <;> simp <;> omega
  · rw [le_tenth_iff] at h2
    rw [le_three_tenths_iff] at h3
    refine ⟨by simp [h1], ?_, ?_, ?_⟩ <;> simp <;> omega

end FlightSearch
